import Mathlib

/-!
Shallow embedding of the transactional core of the `corngr` ledger engine
(`src/src-tauri/src/erp/`), together with theorems settling the frozen claims
about it.

Modelling conventions, stated once here and referenced below:

* Rust `f64` monetary amounts and quantities are modelled as exact rationals
  (`ℚ`).  The code only adds, multiplies, compares and rounds amounts that are
  ordinary currency values, so exact rational arithmetic is the intended
  reading of every arithmetic comparison in the claims.
* Rust `u64` counters are modelled as `Nat` (with explicit `2 ^ 64` bounds
  where an encoding into 8 bytes matters) and `i64` timestamps as `Int` with
  explicit `% 2 ^ 64` two's-complement reduction in the byte encoding.
* `HashMap`/`HashSet` state of the replay guard is modelled as association
  lists / membership lists; only lookup, membership and insert are used.
* External crates (`sha2`, `ed25519_dalek`, `hex`, `serde_json`, `uuid`) are
  not part of this repository; they are modelled by executable idealised
  primitives, each documented at its definition site.
-/

/-! ## Core enums (`src/src-tauri/src/erp/types.rs`) -/

/-- `TxType` from `types.rs`. -/
inductive TxType where
  | InvoiceOut
  | InvoiceIn
  | PaymentIn
  | PaymentOut
  | StockReceipt
  | StockIssue
  | StockAdjust
  | Journal
  | CreditNote
  | DebitNote
deriving DecidableEq

/-- `TxType::as_str`. -/
def TxType.as_str : TxType → String
  | .InvoiceOut => "invoice_out"
  | .InvoiceIn => "invoice_in"
  | .PaymentIn => "payment_in"
  | .PaymentOut => "payment_out"
  | .StockReceipt => "stock_receipt"
  | .StockIssue => "stock_issue"
  | .StockAdjust => "stock_adjust"
  | .Journal => "journal"
  | .CreditNote => "credit_note"
  | .DebitNote => "debit_note"

/-- `TxStatus` from `types.rs`. -/
inductive TxStatus where
  | Draft
  | Proposed
  | Approved
  | Posted
  | Void
deriving DecidableEq

/-- `TxStatus::as_str`. -/
def TxStatus.as_str : TxStatus → String
  | .Draft => "draft"
  | .Proposed => "proposed"
  | .Approved => "approved"
  | .Posted => "posted"
  | .Void => "void"

/-- `Role` from `types.rs`. -/
inductive Role where
  | OwnerAdmin
  | Manager
  | Finance
  | Staff
  | Auditor
  | Engine
deriving DecidableEq

/-- `Role::as_str`. -/
def Role.as_str : Role → String
  | .OwnerAdmin => "owner_admin"
  | .Manager => "manager"
  | .Finance => "finance"
  | .Staff => "staff"
  | .Auditor => "auditor"
  | .Engine => "engine"

/-- `InventoryEffect` from `types.rs`. -/
inductive InventoryEffect where
  | Increase
  | Decrease
  | None
deriving DecidableEq

/-- `InventoryEffect::as_str`. -/
def InventoryEffect.as_str : InventoryEffect → String
  | .Increase => "increase"
  | .Decrease => "decrease"
  | .None => "none"

/-- `InventoryEffect::expected_sign` (the `f64` sign is modelled in `ℚ`). -/
def InventoryEffect.expected_sign : InventoryEffect → Option ℚ
  | .Increase => some 1
  | .Decrease => some (-1)
  | .None => Option.none

/-! ## Errors (`src/src-tauri/src/erp/errors.rs`)

`f64` payloads are modelled as `ℚ`, `u64` payloads as `Nat`. -/

/-- `ErpError` from `errors.rs`. -/
inductive ErpError where
  | AbacDeny : String → ErpError
  | InvalidTxType : String → ErpError
  | InvalidStatus : String → String → ErpError
  | InvalidField : String → ErpError
  | ValidationFail : String → ErpError
  | BalanceFail : ℚ → ℚ → ℚ → ErpError
  | ApprovalMissing : String → String → ErpError
  | ItemMismatch : String → String → ErpError
  | InventoryEffectMismatch : ℚ → String → ErpError
  | MoveQtyExceeds : ℚ → ℚ → ErpError
  | SigInvalid : String → ErpError
  | ReplayMutationId : String → ErpError
  | LamportRewind : Nat → Nat → ErpError
  | PostingsMissing : String → ErpError
  | LineImmutable : String → ErpError
deriving DecidableEq

/-! ## Data records (`src/src-tauri/src/erp/types.rs`) -/

/-- `ActorContext` from `types.rs`.  The actor's hex-encoded Ed25519 public key
is modelled as its decoded byte list (the hex codec of the `hex` crate is a
bijection between even-length hex strings and byte lists, so it is modelled
away; the 32-byte length check of `verify` is kept). -/
structure ActorContext where
  pubkey : List Nat
  role : Role
  org_id : String
  lamport : Nat
deriving DecidableEq

/-- `PolicyContext` from `types.rs`. -/
structure PolicyContext where
  org_id : String
  tx_id : Option String
  tx_status : Option TxStatus
deriving DecidableEq

/-- `TxHeader` from `types.rs`. -/
structure TxHeader where
  tx_id : String
  org_id : String
  tx_type : TxType
  status : TxStatus
  party_id : Option String
  currency : String
  ref_number : Option String
  description : Option String
  tx_date : String
  created_at_ms : Int
  created_by_pubkey : String
  site_id : String
deriving DecidableEq

/-- `TxLine` from `types.rs`. -/
structure TxLine where
  line_id : String
  tx_id : String
  item_id : Option String
  account_id : Option String
  description : Option String
  qty : ℚ
  unit_price : ℚ
  inventory_effect : InventoryEffect
  move_ids : List String
  tax_code : Option String
  tax_rate : ℚ
deriving DecidableEq

/-- `InvMove` from `types.rs`. -/
structure InvMove where
  move_id : String
  tx_id : String
  tx_line_id : String
  item_id : String
  qty_delta : ℚ
  location_id : Option String
  moved_at_ms : Int
  moved_by_pubkey : String
  site_id : String
deriving DecidableEq

/-- `Posting` from `types.rs`. -/
structure Posting where
  posting_id : String
  tx_id : String
  account_id : String
  debit_amount : ℚ
  credit_amount : ℚ
  currency : String
  description : Option String
  status : String
  generated_by : String
deriving DecidableEq

/-- `ApprovalAtom` from `types.rs`. -/
structure ApprovalAtom where
  approval_id : String
  tx_id : String
  approval_type : String
  signer_pubkey : String
  signed_at_ms : Int
  signature_ref : String
deriving DecidableEq

/-! ## Balance validation (`src/src-tauri/src/erp/ledger.rs`) -/

/-- `ROUNDING_TOLERANCE` from `ledger.rs`. -/
def ROUNDING_TOLERANCE : ℚ := 1 / 100

/-- `validate_balance` from `ledger.rs`: sums debits and credits over the
postings and rejects with `BalanceFail(total_debit, total_credit, delta)` when
the absolute difference exceeds `ROUNDING_TOLERANCE`. -/
def validate_balance (postings : List Posting) : Except ErpError Unit :=
  let total_debit : ℚ := (postings.map Posting.debit_amount).sum
  let total_credit : ℚ := (postings.map Posting.credit_amount).sum
  let delta : ℚ := |total_debit - total_credit|
  if delta > ROUNDING_TOLERANCE then
    Except.error (ErpError.BalanceFail total_debit total_credit delta)
  else
    Except.ok ()

/-! ## Status machine (`src/src-tauri/src/erp/status.rs`) -/

/-- `transition` from `status.rs`. -/
def transition (current target : TxStatus) : Except ErpError TxStatus :=
  let allowed : Bool :=
    match current with
    | TxStatus.Draft => decide (target = TxStatus.Proposed ∨ target = TxStatus.Void)
    | TxStatus.Proposed => decide (target = TxStatus.Approved ∨ target = TxStatus.Void)
    | TxStatus.Approved => decide (target = TxStatus.Posted)
    | TxStatus.Posted => false
    | TxStatus.Void => false
  if allowed then Except.ok target
  else Except.error (ErpError.InvalidStatus current.as_str target.as_str)

/-! ## Replay guard (`src/src-tauri/src/erp/replay.rs`)

`HashSet<String>` is modelled as a `List String` with membership, and
`HashMap<String, u64>` as an association list with front insertion (lookup
returns the most recently inserted binding, matching map overwrite). -/

/-- `ReplayGuard` state from `replay.rs`. -/
structure ReplayGuard where
  max_lamport : List (String × Nat)
  seen_mutations : List String
deriving DecidableEq

/-- `ReplayGuard::new`. -/
def ReplayGuard.new : ReplayGuard := ⟨[], []⟩

/-- Association-list lookup modelling `HashMap::get`. -/
def assocLookup (m : List (String × Nat)) (k : String) : Option Nat :=
  match m with
  | [] => Option.none
  | (k', v) :: rest => if k' = k then some v else assocLookup rest k

/-- `ReplayGuard::check_and_record` from `replay.rs`.  The Rust method mutates
`&mut self`; it is modelled as returning the (possibly unchanged) state next
to the result, with the early-return error paths leaving the state exactly as
received. -/
def ReplayGuard.check_and_record (g : ReplayGuard) (actor_pubkey mutation_id : String)
    (lamport : Nat) : Option ErpError × ReplayGuard :=
  if mutation_id ∈ g.seen_mutations then
    (some (ErpError.ReplayMutationId mutation_id), g)
  else
    match assocLookup g.max_lamport actor_pubkey with
    | some max =>
      if lamport ≤ max then
        (some (ErpError.LamportRewind lamport max), g)
      else
        (Option.none,
          ⟨(actor_pubkey, lamport) :: g.max_lamport, mutation_id :: g.seen_mutations⟩)
    | Option.none =>
        (Option.none,
          ⟨(actor_pubkey, lamport) :: g.max_lamport, mutation_id :: g.seen_mutations⟩)

/-! ## Claim C1 -/

/-- C1: `validate_balance` accepts exactly when the absolute difference
between the sum of debit amounts and the sum of credit amounts is at most the
fixed tolerance `0.01`, and otherwise rejects with a balance error carrying
the debit total, the credit total, and their delta. -/
theorem C1_validate_balance (postings : List Posting) :
    (|(postings.map Posting.debit_amount).sum - (postings.map Posting.credit_amount).sum| ≤ 1 / 100 →
      validate_balance postings = Except.ok ()) ∧
    (|(postings.map Posting.debit_amount).sum - (postings.map Posting.credit_amount).sum| > 1 / 100 →
      validate_balance postings =
        Except.error (ErpError.BalanceFail
          (postings.map Posting.debit_amount).sum
          (postings.map Posting.credit_amount).sum
          |(postings.map Posting.debit_amount).sum - (postings.map Posting.credit_amount).sum|)) := by
  constructor
  · intro h
    simp only [validate_balance, ROUNDING_TOLERANCE]
    rw [if_neg (by exact not_lt.mpr h)]
  · intro h
    simp only [validate_balance, ROUNDING_TOLERANCE]
    rw [if_pos h]

/-- Witness for C1: a concrete balanced set is accepted and a concrete
imbalanced set is rejected with the exact totals and delta. -/
theorem C1_validate_balance_witness :
    validate_balance
      [{ posting_id := "p1", tx_id := "tx1", account_id := "bank",
         debit_amount := 100, credit_amount := 0, currency := "AUD",
         description := Option.none, status := "draft", generated_by := "engine" },
       { posting_id := "p2", tx_id := "tx1", account_id := "revenue",
         debit_amount := 0, credit_amount := 80, currency := "AUD",
         description := Option.none, status := "draft", generated_by := "engine" }] =
      Except.error (ErpError.BalanceFail 100 80 20) := by
  have h := (C1_validate_balance
    [{ posting_id := "p1", tx_id := "tx1", account_id := "bank",
       debit_amount := 100, credit_amount := 0, currency := "AUD",
       description := Option.none, status := "draft", generated_by := "engine" },
     { posting_id := "p2", tx_id := "tx1", account_id := "revenue",
       debit_amount := 0, credit_amount := 80, currency := "AUD",
       description := Option.none, status := "draft", generated_by := "engine" }]).2
  have h' := h (by norm_num)
  have e : |(100 : ℚ) - 80| = (20 : ℚ) := by norm_num
  simpa [e] using h'

/-! ## Claim C2 -/

/-- C2: the status machine admits exactly the five transitions
Draft→Proposed, Draft→Void, Proposed→Approved, Proposed→Void,
Approved→Posted, and every other pair fails with an
invalid-status-transition error naming both endpoints. -/
theorem C2_transition (current target : TxStatus) :
    (((current = TxStatus.Draft ∧ target = TxStatus.Proposed) ∨
      (current = TxStatus.Draft ∧ target = TxStatus.Void) ∨
      (current = TxStatus.Proposed ∧ target = TxStatus.Approved) ∨
      (current = TxStatus.Proposed ∧ target = TxStatus.Void) ∨
      (current = TxStatus.Approved ∧ target = TxStatus.Posted)) →
        transition current target = Except.ok target) ∧
    (¬((current = TxStatus.Draft ∧ target = TxStatus.Proposed) ∨
      (current = TxStatus.Draft ∧ target = TxStatus.Void) ∨
      (current = TxStatus.Proposed ∧ target = TxStatus.Approved) ∨
      (current = TxStatus.Proposed ∧ target = TxStatus.Void) ∨
      (current = TxStatus.Approved ∧ target = TxStatus.Posted)) →
        transition current target =
          Except.error (ErpError.InvalidStatus current.as_str target.as_str)) := by
  cases current <;> cases target <;> simp [transition, TxStatus.as_str]

/-- Witness for C2: Approved→Posted succeeds and Posted→Void fails with the
error naming both endpoints. -/
theorem C2_transition_witness :
    transition TxStatus.Approved TxStatus.Posted = Except.ok TxStatus.Posted ∧
    transition TxStatus.Posted TxStatus.Void =
      Except.error (ErpError.InvalidStatus "posted" "void") := by
  constructor
  · exact (C2_transition TxStatus.Approved TxStatus.Posted).1 (by simp)
  · have h := (C2_transition TxStatus.Posted TxStatus.Void).2 (by simp)
    simpa [TxStatus.as_str] using h

/-! ## Claim C3 -/

/-- C3: on any replay-guard state, `check_and_record` rejects with a
duplicate-mutation error when the mutation id was recorded before (by any
actor); otherwise rejects with a rewind error when the actor has a recorded
maximum and `lamport` is not strictly greater than it (an actor with no
recorded maximum always passes the lamport check); otherwise records the
mutation id and the new per-actor maximum and succeeds.  Every rejected call
returns the state unchanged. -/
theorem C3_check_and_record (g : ReplayGuard) (actor mid : String) (lamport : Nat) :
    (mid ∈ g.seen_mutations →
      g.check_and_record actor mid lamport = (some (ErpError.ReplayMutationId mid), g)) ∧
    (mid ∉ g.seen_mutations →
      ∀ max, assocLookup g.max_lamport actor = some max → lamport ≤ max →
        g.check_and_record actor mid lamport = (some (ErpError.LamportRewind lamport max), g)) ∧
    (mid ∉ g.seen_mutations →
      ∀ max, assocLookup g.max_lamport actor = some max → lamport > max →
        g.check_and_record actor mid lamport =
          (Option.none, ⟨(actor, lamport) :: g.max_lamport, mid :: g.seen_mutations⟩)) ∧
    (mid ∉ g.seen_mutations →
      assocLookup g.max_lamport actor = Option.none →
        g.check_and_record actor mid lamport =
          (Option.none, ⟨(actor, lamport) :: g.max_lamport, mid :: g.seen_mutations⟩)) := by
  refine ⟨fun h => ?_, fun h max hm hle => ?_, fun h max hm hgt => ?_, fun h hm => ?_⟩
  · simp [ReplayGuard.check_and_record, h]
  · simp [ReplayGuard.check_and_record, h, hm, hle]
  · simp [ReplayGuard.check_and_record, h, hm, Nat.not_le.mpr hgt]
  · simp [ReplayGuard.check_and_record, h, hm]

/-- Witness for C3, following the spec's replay scenario: "mut-1" from "pk1"
at lamport 1 succeeds; repeating "mut-1" fails as duplicate; "mut-2" at
lamport 1 fails as rewind; "mut-2" at lamport 2 succeeds; a fresh actor "pk2"
at lamport 1 succeeds. -/
theorem C3_check_and_record_witness :
    (ReplayGuard.new.check_and_record "pk1" "mut-1" 1).1 = Option.none ∧
    ((ReplayGuard.new.check_and_record "pk1" "mut-1" 1).2.check_and_record "pk1" "mut-1" 5).1 =
      some (ErpError.ReplayMutationId "mut-1") ∧
    ((ReplayGuard.new.check_and_record "pk1" "mut-1" 1).2.check_and_record "pk1" "mut-2" 1).1 =
      some (ErpError.LamportRewind 1 1) ∧
    ((ReplayGuard.new.check_and_record "pk1" "mut-1" 1).2.check_and_record "pk1" "mut-2" 2).1 =
      Option.none ∧
    ((ReplayGuard.new.check_and_record "pk1" "mut-1" 1).2.check_and_record "pk2" "mut-3" 1).1 =
      Option.none := by
  have step1 := (C3_check_and_record ReplayGuard.new "pk1" "mut-1" 1).2.2.2
    (by decide) (by decide)
  refine ⟨by rw [step1], ?_, ?_, ?_, ?_⟩
  · have h := (C3_check_and_record (ReplayGuard.new.check_and_record "pk1" "mut-1" 1).2
      "pk1" "mut-1" 5).1
    rw [step1] at h ⊢
    rw [h (by decide)]
  · have h := (C3_check_and_record (ReplayGuard.new.check_and_record "pk1" "mut-1" 1).2
      "pk1" "mut-2" 1).2.1
    rw [step1] at h ⊢
    rw [h (by decide) 1 (by decide) (by decide)]
  · have h := (C3_check_and_record (ReplayGuard.new.check_and_record "pk1" "mut-1" 1).2
      "pk1" "mut-2" 2).2.2.1
    rw [step1] at h ⊢
    rw [h (by decide) 1 (by decide) (by decide)]
  · have h := (C3_check_and_record (ReplayGuard.new.check_and_record "pk1" "mut-1" 1).2
      "pk2" "mut-3" 1).2.2.2
    rw [step1] at h ⊢
    rw [h (by decide) (by decide)]

/-! ## Policy evaluator (`src/src-tauri/src/erp/abac.rs`) -/

/-- `Action` from `abac.rs` (named `ErpAction` here because Mathlib already
declares an `Action`). -/
inductive ErpAction where
  | TxCreate
  | TxEdit
  | TxPost
  | TxReverse
  | TxVoid
  | PostingCreate
  | PostingFinalize
  | InvMoveCreate
  | IndexUpdate
  | AuditRead
deriving DecidableEq

/-- `require_role` from `abac.rs`. -/
def require_role (actor : ActorContext) (allowed : List Role) : Except ErpError Unit :=
  if actor.role ∈ allowed then Except.ok ()
  else
    Except.error (ErpError.AbacDeny
      ("role '" ++ actor.role.as_str ++ "' is not permitted for this action"))

/-- `check_abac` from `abac.rs`. -/
def check_abac (actor : ActorContext) (action : ErpAction) (context : PolicyContext) :
    Except ErpError Unit :=
  match action with
  | ErpAction.TxCreate =>
      require_role actor [Role.Staff, Role.Manager, Role.Finance, Role.OwnerAdmin]
  | ErpAction.TxEdit =>
      match require_role actor [Role.Staff, Role.Manager, Role.Finance, Role.OwnerAdmin] with
      | Except.error e => Except.error e
      | Except.ok _ =>
        match context.tx_status with
        | some status =>
            if status = TxStatus.Posted ∨ status = TxStatus.Void then
              Except.error (ErpError.AbacDeny ("tx.edit denied: tx is " ++ status.as_str))
            else Except.ok ()
        | Option.none => Except.ok ()
  | ErpAction.PostingCreate =>
      require_role actor [Role.Finance, Role.OwnerAdmin]
  | ErpAction.PostingFinalize =>
      require_role actor [Role.Finance, Role.OwnerAdmin]
  | ErpAction.InvMoveCreate =>
      match require_role actor [Role.Staff, Role.Manager, Role.Finance, Role.OwnerAdmin] with
      | Except.error e => Except.error e
      | Except.ok _ =>
        if context.tx_status = some TxStatus.Posted then
          Except.error (ErpError.AbacDeny "invmove.create denied: tx is posted")
        else Except.ok ()
  | ErpAction.TxPost =>
      require_role actor [Role.Finance, Role.OwnerAdmin]
  | ErpAction.TxReverse =>
      require_role actor [Role.Finance, Role.OwnerAdmin]
  | ErpAction.TxVoid =>
      match require_role actor [Role.Manager, Role.Finance, Role.OwnerAdmin] with
      | Except.error e => Except.error e
      | Except.ok _ =>
        if context.tx_status = some TxStatus.Posted then
          Except.error (ErpError.AbacDeny "tx.void denied: tx is posted; use tx.reverse")
        else Except.ok ()
  | ErpAction.IndexUpdate =>
      if actor.role ≠ Role.Engine then
        Except.error (ErpError.AbacDeny
          "index.update is engine-only and cannot be called externally")
      else Except.ok ()
  | ErpAction.AuditRead =>
      require_role actor [Role.Auditor, Role.Finance, Role.OwnerAdmin]

/-! ## Claim C9 -/

/-- C9: for actors with role Staff/Manager/Finance/OwnerAdmin, `tx.edit` is
allowed exactly unless the policy context's transaction status is Posted or
Void (then denied); for actors with role Manager/Finance/OwnerAdmin, `tx.void`
is allowed exactly unless the status is Posted (then denied); actors outside
the respective role set are denied. -/
theorem C9_abac_edit_void (actor : ActorContext) (ctx : PolicyContext) :
    (actor.role ∈ [Role.Staff, Role.Manager, Role.Finance, Role.OwnerAdmin] →
      ¬(ctx.tx_status = some TxStatus.Posted ∨ ctx.tx_status = some TxStatus.Void) →
        check_abac actor ErpAction.TxEdit ctx = Except.ok ()) ∧
    (actor.role ∈ [Role.Staff, Role.Manager, Role.Finance, Role.OwnerAdmin] →
      (ctx.tx_status = some TxStatus.Posted ∨ ctx.tx_status = some TxStatus.Void) →
        ∃ msg, check_abac actor ErpAction.TxEdit ctx = Except.error (ErpError.AbacDeny msg)) ∧
    (actor.role ∉ [Role.Staff, Role.Manager, Role.Finance, Role.OwnerAdmin] →
      ∃ msg, check_abac actor ErpAction.TxEdit ctx = Except.error (ErpError.AbacDeny msg)) ∧
    (actor.role ∈ [Role.Manager, Role.Finance, Role.OwnerAdmin] →
      ctx.tx_status ≠ some TxStatus.Posted →
        check_abac actor ErpAction.TxVoid ctx = Except.ok ()) ∧
    (actor.role ∈ [Role.Manager, Role.Finance, Role.OwnerAdmin] →
      ctx.tx_status = some TxStatus.Posted →
        ∃ msg, check_abac actor ErpAction.TxVoid ctx = Except.error (ErpError.AbacDeny msg)) ∧
    (actor.role ∉ [Role.Manager, Role.Finance, Role.OwnerAdmin] →
      ∃ msg, check_abac actor ErpAction.TxVoid ctx = Except.error (ErpError.AbacDeny msg)) := by
  obtain ⟨pk, role, org, lam⟩ := actor
  obtain ⟨corg, ctxid, cst⟩ := ctx
  cases role <;> rcases cst with _ | st <;> (try cases st) <;>
    refine ⟨?_, ?_, ?_, ?_, ?_, ?_⟩ <;>
    simp [check_abac, require_role]

/-- Witness for C9: a Staff actor may edit a draft transaction, is denied
editing a posted one, and is denied `tx.void` outright. -/
theorem C9_abac_edit_void_witness :
    check_abac ⟨[], Role.Staff, "org1", 1⟩ ErpAction.TxEdit
      ⟨"org1", some "tx1", some TxStatus.Draft⟩ = Except.ok () ∧
    (∃ msg, check_abac ⟨[], Role.Staff, "org1", 1⟩ ErpAction.TxEdit
      ⟨"org1", some "tx1", some TxStatus.Posted⟩ = Except.error (ErpError.AbacDeny msg)) ∧
    (∃ msg, check_abac ⟨[], Role.Staff, "org1", 1⟩ ErpAction.TxVoid
      ⟨"org1", some "tx1", some TxStatus.Draft⟩ = Except.error (ErpError.AbacDeny msg)) := by
  refine ⟨?_, ?_, ?_⟩
  · exact (C9_abac_edit_void ⟨[], Role.Staff, "org1", 1⟩
      ⟨"org1", some "tx1", some TxStatus.Draft⟩).1 (by simp) (by simp)
  · exact (C9_abac_edit_void ⟨[], Role.Staff, "org1", 1⟩
      ⟨"org1", some "tx1", some TxStatus.Posted⟩).2.1 (by simp) (by simp)
  · exact (C9_abac_edit_void ⟨[], Role.Staff, "org1", 1⟩
      ⟨"org1", some "tx1", some TxStatus.Draft⟩).2.2.2.2.2 (by simp)

/-! ## Claim C10 -/

/-- C10: `check_abac` is independent of both organisation identifiers — for
every action, two calls whose actor and policy context differ only in the
actor's `org_id` and/or the context's `org_id` return the same result. -/
theorem C10_abac_org_independent (action : ErpAction) (pk : List Nat) (role : Role)
    (lam : Nat) (o1 o1' o2 o2' : String) (txid : Option String) (st : Option TxStatus) :
    check_abac ⟨pk, role, o1, lam⟩ action ⟨o2, txid, st⟩ =
      check_abac ⟨pk, role, o1', lam⟩ action ⟨o2', txid, st⟩ := by
  cases action <;> rfl

/-! ## Posting generation (`src/src-tauri/src/erp/ledger.rs`) -/

/-- `f64::round` (round half away from zero) on exact rationals. -/
def rustRound (x : ℚ) : ℤ :=
  if x ≥ 0 then ⌊x + 1 / 2⌋ else ⌈x - 1 / 2⌉

/-- `round2` from `ledger.rs`: round to 2 decimal places. -/
def round2 (v : ℚ) : ℚ := (rustRound (v * 100) : ℚ) / 100

/-- `draft_posting` from `ledger.rs`.  The source draws a fresh
`uuid::Uuid::new_v4` and wraps it via `fragments::posting_id`; the random id
is modelled by the opaque constant `""` — no claim inspects posting ids. -/
def draft_posting (tx_id account_id : String) (debit credit : ℚ)
    (desc : Option String) : Posting :=
  { posting_id := ""
    tx_id := tx_id
    account_id := account_id
    debit_amount := round2 debit
    credit_amount := round2 credit
    currency := "AUD"
    description := desc
    status := "draft"
    generated_by := "engine" }

/-- `line_totals` from `ledger.rs`: accumulate line subtotals and their taxes,
rounding each total once at the end. -/
def line_totals (lines : List TxLine) : ℚ × ℚ :=
  let line_total : ℚ := (lines.map (fun l => l.qty * l.unit_price)).sum
  let tax_total : ℚ := (lines.map (fun l => l.qty * l.unit_price * l.tax_rate)).sum
  (round2 line_total, round2 tax_total)

/-- `estimate_cogs` from `ledger.rs`: invoiced amount of inventory-decreasing
lines. -/
def estimate_cogs (lines : List TxLine) : ℚ :=
  round2 ((lines.filter
    (fun l => decide (l.inventory_effect = InventoryEffect.Decrease))).map
      (fun l => l.qty * l.unit_price)).sum

/-- The per-transaction-type posting table of `generate_postings` from
`ledger.rs` (the body of its `match tx_type`), split into a top-level
pattern match with the computed totals passed in. -/
def postings_for :
    TxType → String → List TxLine → Bool → ℚ → ℚ → ℚ → List Posting
  | TxType.InvoiceOut, tx_id, lines, has_invmoves, line_total, tax_total, gross_total =>
      [draft_posting tx_id "accounts_receivable" gross_total 0 (some "AR - Invoice out"),
       draft_posting tx_id "revenue" 0 line_total (some "Revenue - Invoice out")] ++
      (if tax_total > 0 then
        [draft_posting tx_id "tax_payable" 0 tax_total (some "GST/Tax payable")]
      else []) ++
      (if has_invmoves then
        if estimate_cogs lines > 0 then
          [draft_posting tx_id "cogs" (estimate_cogs lines) 0 (some "COGS - shipped"),
           draft_posting tx_id "inventory_asset" 0 (estimate_cogs lines)
             (some "Inventory relief - shipped")]
        else []
      else [])
  | TxType.InvoiceIn, tx_id, _, has_invmoves, line_total, tax_total, gross_total =>
      [draft_posting tx_id (if has_invmoves then "inventory_asset" else "expense")
        line_total 0 (some "Purchase - Invoice in")] ++
      (if tax_total > 0 then
        [draft_posting tx_id "tax_receivable" tax_total 0 (some "GST input tax credit")]
      else []) ++
      [draft_posting tx_id "accounts_payable" 0 gross_total (some "AP - Invoice in")]
  | TxType.PaymentIn, tx_id, _, _, _, _, gross_total =>
      [draft_posting tx_id "bank" gross_total 0 (some "Payment received"),
       draft_posting tx_id "accounts_receivable" 0 gross_total (some "AR settlement")]
  | TxType.PaymentOut, tx_id, _, _, _, _, gross_total =>
      [draft_posting tx_id "accounts_payable" gross_total 0 (some "AP payment"),
       draft_posting tx_id "bank" 0 gross_total (some "Bank payment")]
  | TxType.StockReceipt, tx_id, _, _, line_total, _, _ =>
      [draft_posting tx_id "inventory_asset" line_total 0 (some "Stock received"),
       draft_posting tx_id "goods_received_not_invoiced" 0 line_total (some "GRNI")]
  | TxType.StockIssue, tx_id, _, _, line_total, _, _ =>
      [draft_posting tx_id "cogs" line_total 0 (some "Stock issued"),
       draft_posting tx_id "inventory_asset" 0 line_total (some "Inventory relief")]
  | TxType.StockAdjust, tx_id, _, _, line_total, _, _ =>
      if line_total ≥ 0 then
        [draft_posting tx_id "inventory_asset" line_total 0 (some "Stock adjustment (increase)"),
         draft_posting tx_id "stock_adjustment_gain" 0 line_total (some "Adjustment gain")]
      else
        [draft_posting tx_id "stock_adjustment_loss" |line_total| 0 (some "Adjustment loss"),
         draft_posting tx_id "inventory_asset" 0 |line_total| (some "Stock adjustment (decrease)")]
  | TxType.Journal, tx_id, lines, _, _, _, _ =>
      lines.foldr
        (fun line acc =>
          match line.account_id with
          | some acct =>
              (if line.unit_price ≥ 0 then
                draft_posting tx_id acct |line.qty * line.unit_price| 0 line.description
              else
                draft_posting tx_id acct 0 |line.qty * line.unit_price| line.description) :: acc
          | Option.none => acc) []
  | TxType.CreditNote, tx_id, _, _, line_total, tax_total, gross_total =>
      [draft_posting tx_id "accounts_receivable" 0 gross_total (some "AR credit"),
       draft_posting tx_id "revenue" line_total 0 (some "Revenue reversal")] ++
      (if tax_total > 0 then
        [draft_posting tx_id "tax_payable" tax_total 0 (some "Tax return")]
      else [])
  | TxType.DebitNote, tx_id, _, has_invmoves, line_total, _, gross_total =>
      [draft_posting tx_id (if has_invmoves then "inventory_asset" else "expense")
        0 line_total (some "Debit note reversal"),
       draft_posting tx_id "accounts_payable" gross_total 0 (some "AP debit note")]

/-- `generate_postings` from `ledger.rs`: emit draft postings per transaction
type from the fixed account-mapping table above, then validate the balance. -/
def generate_postings (tx_type : TxType) (tx_id : String) (lines : List TxLine)
    (_currency : String) (has_invmoves : Bool) : Except ErpError (List Posting) :=
  let totals := line_totals lines
  let postings :=
    postings_for tx_type tx_id lines has_invmoves totals.1 totals.2 (totals.1 + totals.2)
  match validate_balance postings with
  | Except.error e => Except.error e
  | Except.ok _ => Except.ok postings

/-! ## Claim C8 -/

section
set_option maxHeartbeats 1000000

/-- C8: on an invoice-out with the single line qty=10, unit price=100,
tax rate=0.1 and no linked inventory movements, `generate_postings` returns a
set containing an Accounts-Receivable debit of 1100.00, a Revenue credit of
1000.00 and a Tax-Payable credit of 100.00, and the returned set balances. -/
theorem C8_generate_postings_invoice_out :
    ∃ ps,
      generate_postings TxType.InvoiceOut "tx1"
        [{ line_id := "line1", tx_id := "tx1", item_id := some "item1",
           account_id := some "revenue", description := Option.none,
           qty := 10, unit_price := 100, inventory_effect := InventoryEffect.None,
           move_ids := [], tax_code := some "GST", tax_rate := 1 / 10 }]
        "AUD" false = Except.ok ps ∧
      (∃ p ∈ ps, p.account_id = "accounts_receivable" ∧
        p.debit_amount = 1100 ∧ p.credit_amount = 0) ∧
      (∃ p ∈ ps, p.account_id = "revenue" ∧
        p.debit_amount = 0 ∧ p.credit_amount = 1000) ∧
      (∃ p ∈ ps, p.account_id = "tax_payable" ∧
        p.debit_amount = 0 ∧ p.credit_amount = 100) ∧
      validate_balance ps = Except.ok () := by
  have hr0 : round2 (0 : ℚ) = 0 := by norm_num [round2, rustRound]
  have hr100 : round2 (100 : ℚ) = 100 := by norm_num [round2, rustRound]
  have hr1000 : round2 (1000 : ℚ) = 1000 := by norm_num [round2, rustRound]
  have hr1100 : round2 (1100 : ℚ) = 1100 := by norm_num [round2, rustRound]
  have hlt :
      line_totals
        [{ line_id := "line1", tx_id := "tx1", item_id := some "item1",
           account_id := some "revenue", description := Option.none,
           qty := 10, unit_price := 100, inventory_effect := InventoryEffect.None,
           move_ids := [], tax_code := some "GST", tax_rate := 1 / 10 }] = (1000, 100) := by
    norm_num [line_totals, round2, rustRound]
  refine ⟨[draft_posting "tx1" "accounts_receivable" 1100 0 (some "AR - Invoice out"),
    draft_posting "tx1" "revenue" 0 1000 (some "Revenue - Invoice out"),
    draft_posting "tx1" "tax_payable" 0 100 (some "GST/Tax payable")], ?_, ?_, ?_, ?_, ?_⟩
  · simp only [generate_postings, hlt]
    norm_num [postings_for, validate_balance, draft_posting, hr0, hr100, hr1000, hr1100,
      ROUNDING_TOLERANCE]
  · exact ⟨draft_posting "tx1" "accounts_receivable" 1100 0 (some "AR - Invoice out"),
      by simp, by simp [draft_posting, hr0, hr1100]⟩
  · exact ⟨draft_posting "tx1" "revenue" 0 1000 (some "Revenue - Invoice out"),
      by simp, by simp [draft_posting, hr0, hr1000]⟩
  · exact ⟨draft_posting "tx1" "tax_payable" 0 100 (some "GST/Tax payable"),
      by simp, by simp [draft_posting, hr0, hr100]⟩
  · norm_num [validate_balance, draft_posting, hr0, hr100, hr1000, hr1100,
      ROUNDING_TOLERANCE]

end

/-! ## Post validation (`src/src-tauri/src/erp/post.rs`) -/

/-- `validate_invmove_direction` from `post.rs`.  The source renders the
effect in the error as `format!("{:?}", effect).to_lowercase()`, which equals
`as_str` for every variant. -/
def validate_invmove_direction (m : InvMove) (effect : InventoryEffect) :
    Except ErpError Unit :=
  match effect.expected_sign with
  | some expected =>
      if m.qty_delta * expected < 0 then
        Except.error (ErpError.InventoryEffectMismatch m.qty_delta effect.as_str)
      else Except.ok ()
  | Option.none => Except.ok ()

/-- The inner `for m in &line_moves` loop of `validate_post` step 4. -/
def check_moves_direction (effect : InventoryEffect) : List InvMove → Except ErpError Unit
  | [] => Except.ok ()
  | m :: rest =>
      match validate_invmove_direction m effect with
      | Except.error e => Except.error e
      | Except.ok _ => check_moves_direction effect rest

/-- The `linked` filter of `validate_post` step 4: movements of the
transaction. -/
def linked_moves (invmoves : List InvMove) (tx_id : String) : List InvMove :=
  invmoves.filter (fun m => decide (m.tx_id = tx_id))

/-- The `line_moves` filter of `validate_post` step 4: linked movements of one
line. -/
def line_moves_of (linked : List InvMove) (line : TxLine) : List InvMove :=
  linked.filter (fun m => decide (m.tx_line_id = line.line_id))

/-- The `move_sum` of `validate_post` step 4: sum of absolute quantity
deltas. -/
def move_sum (ms : List InvMove) : ℚ :=
  (ms.map (fun m => |m.qty_delta|)).sum

/-- The `for line in lines` loop of `validate_post` step 4 for inventory-bearing
transaction types: per line, the sum of absolute quantity deltas of its linked
movements must not exceed `line.qty + ROUNDING_TOLERANCE`, and each movement's
sign must match the line's inventory effect. -/
def check_line_moves (linked : List InvMove) : List TxLine → Except ErpError Unit
  | [] => Except.ok ()
  | line :: rest =>
      if move_sum (line_moves_of linked line) > line.qty + ROUNDING_TOLERANCE then
        Except.error
          (ErpError.MoveQtyExceeds (move_sum (line_moves_of linked line)) line.qty)
      else
        match check_moves_direction line.inventory_effect (line_moves_of linked line) with
        | Except.error e => Except.error e
        | Except.ok _ => check_line_moves linked rest

/-- One iteration of the non-inventory branch of `validate_post` step 4:
direction and item-id consistency for a movement against its parent line. -/
def check_noninv_move (lines : List TxLine) (m : InvMove) : Except ErpError Unit :=
  match lines.find? (fun l => decide (l.line_id = m.tx_line_id)) with
  | some line =>
      match validate_invmove_direction m line.inventory_effect with
      | Except.error e => Except.error e
      | Except.ok _ =>
          match line.item_id with
          | some line_item =>
              if m.item_id ≠ line_item then
                Except.error (ErpError.ItemMismatch m.item_id line_item)
              else Except.ok ()
          | Option.none => Except.ok ()
  | Option.none => Except.ok ()

/-- The non-inventory branch loop of `validate_post` step 4. -/
def check_noninv_moves (lines : List TxLine) : List InvMove → Except ErpError Unit
  | [] => Except.ok ()
  | m :: rest =>
      match check_noninv_move lines m with
      | Except.error e => Except.error e
      | Except.ok _ => check_noninv_moves lines rest

/-- Step 4 of `validate_post` (the `match tx_type` fulfillment block). -/
def fulfillment_check (tx_header : TxHeader) (lines : List TxLine)
    (invmoves : List InvMove) : Except ErpError Unit :=
  match tx_header.tx_type with
  | TxType.InvoiceOut | TxType.StockReceipt =>
      if (linked_moves invmoves tx_header.tx_id).isEmpty then
        Except.error (ErpError.ValidationFail
          ("post_tx: " ++ tx_header.tx_type.as_str ++
            " requires at least one linked inventory move"))
      else check_line_moves (linked_moves invmoves tx_header.tx_id) lines
  | _ =>
      check_noninv_moves lines (linked_moves invmoves tx_header.tx_id)

/-- Step 3 of `validate_post`: an approval atom of type "post" for the
transaction with a non-empty signature reference. -/
def has_post_approval (approvals : List ApprovalAtom) (tx_id : String) : Bool :=
  approvals.any (fun a =>
    decide (a.tx_id = tx_id) && decide (a.approval_type = "post") &&
      decide (a.signature_ref ≠ ""))

/-- `validate_post` from `post.rs`: ABAC, status gate, approval atom,
fulfillment, and posting-balance checks, in source order. -/
def validate_post (actor : ActorContext) (tx_header : TxHeader) (lines : List TxLine)
    (invmoves : List InvMove) (postings : List Posting)
    (approvals : List ApprovalAtom) : Except ErpError Unit :=
  match check_abac actor ErpAction.TxPost
      ⟨tx_header.org_id, some tx_header.tx_id, some tx_header.status⟩ with
  | Except.error e => Except.error e
  | Except.ok _ =>
    if tx_header.status ≠ TxStatus.Approved then
      Except.error (ErpError.InvalidStatus tx_header.status.as_str "posted")
    else if !(has_post_approval approvals tx_header.tx_id) then
      Except.error (ErpError.ApprovalMissing tx_header.tx_id "post")
    else
      match fulfillment_check tx_header lines invmoves with
      | Except.error e => Except.error e
      | Except.ok _ =>
          let tx_postings := postings.filter (fun p => decide (p.tx_id = tx_header.tx_id))
          if tx_postings.isEmpty then
            Except.error (ErpError.PostingsMissing tx_header.tx_id)
          else validate_balance tx_postings

/-- The direction loop succeeds exactly when every movement in the list passes
the direction check. -/
theorem check_moves_direction_ok_iff (effect : InventoryEffect) (ms : List InvMove) :
    check_moves_direction effect ms = Except.ok () ↔
      ∀ m ∈ ms, validate_invmove_direction m effect = Except.ok () := by
  induction ms with
  | nil => simp [check_moves_direction]
  | cons m rest ih =>
      cases h : validate_invmove_direction m effect with
      | error e => simp [check_moves_direction, h]
      | ok u => cases u; simp [check_moves_direction, h, ih]

/-- The per-line loop succeeds exactly when every line passes both the
quantity bound and the direction check on its own movements. -/
theorem check_line_moves_ok_iff (linked : List InvMove) (lines : List TxLine) :
    check_line_moves linked lines = Except.ok () ↔
      ∀ line ∈ lines,
        move_sum (line_moves_of linked line) ≤ line.qty + ROUNDING_TOLERANCE ∧
        check_moves_direction line.inventory_effect (line_moves_of linked line) =
          Except.ok () := by
  induction lines with
  | nil => simp [check_line_moves]
  | cons line rest ih =>
      by_cases hsum : move_sum (line_moves_of linked line) > line.qty + ROUNDING_TOLERANCE
      · simp only [check_line_moves, if_pos hsum]
        constructor
        · intro h; exact absurd h (by simp)
        · intro h
          exact absurd (h line (by simp)).1 (not_le.mpr hsum)
      · cases h : check_moves_direction line.inventory_effect (line_moves_of linked line) with
        | error e =>
            simp only [check_line_moves, if_neg hsum, h]
            constructor
            · intro hh; exact absurd hh (by simp)
            · intro hh
              exact absurd (hh line (by simp)).2 (by simp [h])
        | ok u =>
            cases u
            simp only [check_line_moves, if_neg hsum, h, ih]
            constructor
            · intro hh line' hl
              rcases List.mem_cons.mp hl with rfl | hl'
              · exact ⟨not_lt.mp hsum, h⟩
              · exact hh line' hl'
            · intro hh line' hl'
              exact hh line' (List.mem_cons_of_mem _ hl')

/-! ## Claim C6 -/

/-- Counterexample to C6 as stated: an inventory-decreasing line with qty=10
and a single linked movement of qty_delta=-10.005 — the absolute movement sum
10.005 exceeds the line quantity 10, yet post-validation succeeds, because the
code compares the sum against `line.qty + ROUNDING_TOLERANCE` (10.01), not
against the line quantity itself. -/
theorem C6_counterexample :
    validate_post ⟨[], Role.Finance, "org1", 1⟩
      { tx_id := "tx1", org_id := "org1", tx_type := TxType.InvoiceOut,
        status := TxStatus.Approved, party_id := Option.none, currency := "AUD",
        ref_number := Option.none, description := Option.none, tx_date := "2026-01-01",
        created_at_ms := 0, created_by_pubkey := "pk1", site_id := "primary" }
      [{ line_id := "line1", tx_id := "tx1", item_id := some "item1",
         account_id := Option.none, description := Option.none,
         qty := 10, unit_price := 10, inventory_effect := InventoryEffect.Decrease,
         move_ids := [], tax_code := Option.none, tax_rate := 0 }]
      [{ move_id := "m1", tx_id := "tx1", tx_line_id := "line1", item_id := "item1",
         qty_delta := -(2001 / 200), location_id := Option.none, moved_at_ms := 0,
         moved_by_pubkey := "pk1", site_id := "primary" }]
      [{ posting_id := "p1", tx_id := "tx1", account_id := "accounts_receivable",
         debit_amount := 100, credit_amount := 0, currency := "AUD",
         description := Option.none, status := "draft", generated_by := "engine" },
       { posting_id := "p2", tx_id := "tx1", account_id := "revenue",
         debit_amount := 0, credit_amount := 100, currency := "AUD",
         description := Option.none, status := "draft", generated_by := "engine" }]
      [{ approval_id := "appr1", tx_id := "tx1", approval_type := "post",
         signer_pubkey := "pk1", signed_at_ms := 1000, signature_ref := "sig" }] =
      Except.ok () := by
  norm_num [validate_post, check_abac, require_role, has_post_approval,
    fulfillment_check, linked_moves, line_moves_of, move_sum, check_line_moves,
    check_moves_direction, validate_invmove_direction, InventoryEffect.expected_sign,
    validate_balance, ROUNDING_TOLERANCE]
  rw [if_neg (by decide)]
  rw [if_neg (by
    rw [show |(2001 / 200 : ℚ)| = 2001 / 200 from abs_of_pos (by norm_num)]
    norm_num)]

/-- C6 as amended: for invoice-out and stock-receipt transactions post-validation
requires at least one linked movement, and per line the sum of absolute movement
quantity deltas must not exceed the line quantity plus the 0.01 rounding
tolerance; a sum more than 0.01 above the line quantity fails with a
move-quantity-exceeded error carrying the movement sum and the line quantity;
a direction-check failure on the first line surfaces that error; and any
movement whose quantity sign disagrees with the line's inventory effect fails
the direction check with an inventory-effect-mismatch error. -/
theorem C6_fulfillment_amended (tx_header : TxHeader) (lines : List TxLine)
    (invmoves : List InvMove) :
    tx_header.tx_type = TxType.InvoiceOut ∨ tx_header.tx_type = TxType.StockReceipt →
    ((linked_moves invmoves tx_header.tx_id = [] →
        fulfillment_check tx_header lines invmoves =
          Except.error (ErpError.ValidationFail
            ("post_tx: " ++ tx_header.tx_type.as_str ++
              " requires at least one linked inventory move"))) ∧
     (fulfillment_check tx_header lines invmoves = Except.ok () ↔
        linked_moves invmoves tx_header.tx_id ≠ [] ∧
        ∀ line ∈ lines,
          move_sum (line_moves_of (linked_moves invmoves tx_header.tx_id) line) ≤
            line.qty + ROUNDING_TOLERANCE ∧
          ∀ m ∈ line_moves_of (linked_moves invmoves tx_header.tx_id) line,
            validate_invmove_direction m line.inventory_effect = Except.ok ()) ∧
     (∀ line rest, lines = line :: rest →
        linked_moves invmoves tx_header.tx_id ≠ [] →
        move_sum (line_moves_of (linked_moves invmoves tx_header.tx_id) line) >
          line.qty + ROUNDING_TOLERANCE →
        fulfillment_check tx_header lines invmoves =
          Except.error (ErpError.MoveQtyExceeds
            (move_sum (line_moves_of (linked_moves invmoves tx_header.tx_id) line))
            line.qty)) ∧
     (∀ line rest e, lines = line :: rest →
        linked_moves invmoves tx_header.tx_id ≠ [] →
        move_sum (line_moves_of (linked_moves invmoves tx_header.tx_id) line) ≤
          line.qty + ROUNDING_TOLERANCE →
        check_moves_direction line.inventory_effect
          (line_moves_of (linked_moves invmoves tx_header.tx_id) line) =
            Except.error e →
        fulfillment_check tx_header lines invmoves = Except.error e) ∧
     (∀ (m : InvMove) (effect : InventoryEffect) (ex : ℚ),
        effect.expected_sign = some ex → m.qty_delta * ex < 0 →
        validate_invmove_direction m effect =
          Except.error (ErpError.InventoryEffectMismatch m.qty_delta effect.as_str))) := by
  intro htype
  have hful : fulfillment_check tx_header lines invmoves =
      if (linked_moves invmoves tx_header.tx_id).isEmpty then
        Except.error (ErpError.ValidationFail
          ("post_tx: " ++ tx_header.tx_type.as_str ++
            " requires at least one linked inventory move"))
      else check_line_moves (linked_moves invmoves tx_header.tx_id) lines := by
    rcases htype with h | h <;> · rw [fulfillment_check, h]
  refine ⟨fun hlink => ?_, ?_, ?_, ?_, ?_⟩
  · rw [hful, if_pos (by simp [hlink])]
  · by_cases hlink : linked_moves invmoves tx_header.tx_id = []
    · rw [hful, if_pos (by simp [hlink])]
      simp [hlink]
    · rw [hful, if_neg (by simp [hlink])]
      rw [check_line_moves_ok_iff]
      simp only [hlink, ne_eq, not_false_eq_true, true_and]
      refine forall_congr' fun line => forall_congr' fun _ => and_congr_right fun _ => ?_
      rw [check_moves_direction_ok_iff]
  · intro line rest hl hlink hsum
    subst hl
    rw [hful, if_neg (by simp [hlink]), check_line_moves, if_pos hsum]
  · intro line rest e hl hlink hsum hdir
    subst hl
    rw [hful, if_neg (by simp [hlink]), check_line_moves,
      if_neg (not_lt.mpr hsum), hdir]
  · intro m effect ex hsig hneg
    rw [validate_invmove_direction, hsig]
    simp only [if_pos hneg]

/-- Witness for C6 (amended): the spec's own examples — a movement sum of 12
against qty 10 fails with move-quantity-exceeded(12,10), a sum of 5 against
qty 10 passes the quantity bound, and a positive movement on a decreasing line
fails the direction check. -/
theorem C6_fulfillment_amended_witness :
    fulfillment_check
      { tx_id := "tx1", org_id := "org1", tx_type := TxType.InvoiceOut,
        status := TxStatus.Approved, party_id := Option.none, currency := "AUD",
        ref_number := Option.none, description := Option.none, tx_date := "2026-01-01",
        created_at_ms := 0, created_by_pubkey := "pk1", site_id := "primary" }
      [{ line_id := "line1", tx_id := "tx1", item_id := some "item1",
         account_id := Option.none, description := Option.none,
         qty := 10, unit_price := 10, inventory_effect := InventoryEffect.Decrease,
         move_ids := [], tax_code := Option.none, tax_rate := 0 }]
      [{ move_id := "m1", tx_id := "tx1", tx_line_id := "line1", item_id := "item1",
         qty_delta := -12, location_id := Option.none, moved_at_ms := 0,
         moved_by_pubkey := "pk1", site_id := "primary" }] =
      Except.error (ErpError.MoveQtyExceeds 12 10) ∧
    validate_invmove_direction
      { move_id := "m2", tx_id := "tx1", tx_line_id := "line1", item_id := "item1",
        qty_delta := 5, location_id := Option.none, moved_at_ms := 0,
        moved_by_pubkey := "pk1", site_id := "primary" } InventoryEffect.Decrease =
      Except.error (ErpError.InventoryEffectMismatch 5 "decrease") := by
  constructor
  · have h := (C6_fulfillment_amended
      { tx_id := "tx1", org_id := "org1", tx_type := TxType.InvoiceOut,
        status := TxStatus.Approved, party_id := Option.none, currency := "AUD",
        ref_number := Option.none, description := Option.none, tx_date := "2026-01-01",
        created_at_ms := 0, created_by_pubkey := "pk1", site_id := "primary" }
      [{ line_id := "line1", tx_id := "tx1", item_id := some "item1",
         account_id := Option.none, description := Option.none,
         qty := 10, unit_price := 10, inventory_effect := InventoryEffect.Decrease,
         move_ids := [], tax_code := Option.none, tax_rate := 0 }]
      [{ move_id := "m1", tx_id := "tx1", tx_line_id := "line1", item_id := "item1",
         qty_delta := -12, location_id := Option.none, moved_at_ms := 0,
         moved_by_pubkey := "pk1", site_id := "primary" }] (Or.inl rfl)).2.2.1
    have h' := h _ _ rfl (by simp [linked_moves])
      (by norm_num [move_sum, line_moves_of, linked_moves, ROUNDING_TOLERANCE])
    simpa [move_sum, line_moves_of, linked_moves] using h'
  · have h := (C6_fulfillment_amended
      { tx_id := "tx1", org_id := "org1", tx_type := TxType.InvoiceOut,
        status := TxStatus.Approved, party_id := Option.none, currency := "AUD",
        ref_number := Option.none, description := Option.none, tx_date := "2026-01-01",
        created_at_ms := 0, created_by_pubkey := "pk1", site_id := "primary" }
      [] [] (Or.inl rfl)).2.2.2.2
    exact h
      { move_id := "m2", tx_id := "tx1", tx_line_id := "line1", item_id := "item1",
        qty_delta := 5, location_id := Option.none, moved_at_ms := 0,
        moved_by_pubkey := "pk1", site_id := "primary" }
      InventoryEffect.Decrease (-1) rfl (by norm_num)

/-! ## Claim C7 -/

/-- C7: for an actor passing the post-action policy check (role Finance or
OwnerAdmin), `validate_post` rejects with an invalid-status error unless the
status is exactly Approved; then rejects with a missing-approval error unless
some approval atom for the transaction has type "post" and a non-empty
signature reference; then (once the fulfillment step passes) rejects with a
missing-postings error when the transaction has no postings, and otherwise
returns the result of the balance check on the transaction's full posting
set. -/
theorem C7_validate_post_gates (actor : ActorContext) (tx_header : TxHeader)
    (lines : List TxLine) (invmoves : List InvMove) (postings : List Posting)
    (approvals : List ApprovalAtom) :
    actor.role = Role.Finance ∨ actor.role = Role.OwnerAdmin →
    ((tx_header.status ≠ TxStatus.Approved →
        validate_post actor tx_header lines invmoves postings approvals =
          Except.error (ErpError.InvalidStatus tx_header.status.as_str "posted")) ∧
     (tx_header.status = TxStatus.Approved →
      has_post_approval approvals tx_header.tx_id = false →
        validate_post actor tx_header lines invmoves postings approvals =
          Except.error (ErpError.ApprovalMissing tx_header.tx_id "post")) ∧
     (tx_header.status = TxStatus.Approved →
      has_post_approval approvals tx_header.tx_id = true →
      fulfillment_check tx_header lines invmoves = Except.ok () →
      postings.filter (fun p => decide (p.tx_id = tx_header.tx_id)) = [] →
        validate_post actor tx_header lines invmoves postings approvals =
          Except.error (ErpError.PostingsMissing tx_header.tx_id)) ∧
     (tx_header.status = TxStatus.Approved →
      has_post_approval approvals tx_header.tx_id = true →
      fulfillment_check tx_header lines invmoves = Except.ok () →
      postings.filter (fun p => decide (p.tx_id = tx_header.tx_id)) ≠ [] →
        validate_post actor tx_header lines invmoves postings approvals =
          validate_balance
            (postings.filter (fun p => decide (p.tx_id = tx_header.tx_id))))) := by
  intro hrole
  have habac : check_abac actor ErpAction.TxPost
      ⟨tx_header.org_id, some tx_header.tx_id, some tx_header.status⟩ = Except.ok () := by
    obtain ⟨pk, role, org, lam⟩ := actor
    rcases hrole with h | h <;> simp only at h <;> subst h <;>
      simp [check_abac, require_role]
  refine ⟨fun hst => ?_, fun hst happ => ?_, fun hst happ hful hfil => ?_,
    fun hst happ hful hfil => ?_⟩
  · rw [validate_post, habac]
    simp only [if_pos hst]
  · rw [validate_post, habac]
    simp only [hst, ne_eq, not_true_eq_false, if_false, happ,
      Bool.not_false, if_true]
  · rw [validate_post, habac]
    simp only [hst, ne_eq, not_true_eq_false, if_false, happ,
      Bool.not_true, Bool.false_eq_true, if_false]
    rw [hful]
    simp only [hfil, List.isEmpty_nil, if_true]
  · rw [validate_post, habac]
    simp only [hst, ne_eq, not_true_eq_false, if_false, happ,
      Bool.not_true, Bool.false_eq_true, if_false]
    rw [hful]
    rw [if_neg (fun hh => hfil (List.isEmpty_iff.mp hh))]

/-- Witness for C7: a Finance actor posting an approved journal transaction
with balanced postings but no approval atom is rejected with
ERR_APPROVAL_MISSING for approval type "post". -/
theorem C7_validate_post_gates_witness :
    validate_post ⟨[], Role.Finance, "org1", 1⟩
      { tx_id := "tx1", org_id := "org1", tx_type := TxType.Journal,
        status := TxStatus.Approved, party_id := Option.none, currency := "AUD",
        ref_number := Option.none, description := Option.none, tx_date := "2026-01-01",
        created_at_ms := 0, created_by_pubkey := "pk1", site_id := "primary" }
      [] [] [] [] =
      Except.error (ErpError.ApprovalMissing "tx1" "post") := by
  exact (C7_validate_post_gates ⟨[], Role.Finance, "org1", 1⟩
    { tx_id := "tx1", org_id := "org1", tx_type := TxType.Journal,
      status := TxStatus.Approved, party_id := Option.none, currency := "AUD",
      ref_number := Option.none, description := Option.none, tx_date := "2026-01-01",
      created_at_ms := 0, created_by_pubkey := "pk1", site_id := "primary" }
    [] [] [] [] (Or.inl rfl)).2.1 rfl rfl

/-! ## Mutation envelope (`src/src-tauri/src/erp/envelope.rs`)

The cryptographic primitives live in external crates and are modelled by
executable idealised functions:

* SHA-256 (`sha2`) is an ideal hash: a deterministic, injective digest
  function (`sha256_hex`).  Collision-freeness of the real compression
  function is an intractable assumption; the ideal-hash reading is the
  standard one and only determinism and injectivity are used below.
* Ed25519 (`ed25519_dalek`) is idealised as a deterministic signature scheme
  for the node's single key pair: the signature of a payload is an injective
  function of the payload padded to the 64-byte signature length, and
  verification accepts exactly that signature under exactly the node's public
  key (deterministic signing plus strong unforgeability, in the single-signer
  deployment the source uses).
* Hex encoding (`hex`) is a bijection between even-length hex strings and
  byte lists and is modelled away: key, signature and digest fields hold the
  decoded byte lists directly (digests as opaque strings); the byte-length
  checks of `verify` are kept.
* Bytes are modelled as `Nat` list entries; the ideal signature stores an
  unbounded encoding in its first entry, which is where the idealisation of
  the 64-byte signature space lives.
-/

/-- Stand-in for `serde_json::Value` op payloads (never inspected, only
serialized). -/
abbrev JsonValue := String

/-- `Op` from `types.rs` (the recursive `ProposalCreate` boxes become an owned
list). -/
inductive Op where
  | MapSet (fragment_id key : String) (value : JsonValue)
  | MapDel (fragment_id key : String)
  | ArrayInsert (fragment_id : String) (index : Nat) (values : List JsonValue)
  | ArrayDelete (fragment_id : String) (index len : Nat)
  | LinkAdd (from_fragment to_fragment rel_type : String)
  | ProposalCreate (proposal_id source_fragment : String) (ops : List Op)
      (rationale : String)

mutual

/-- Canonical serialization of one `Op` (stands for `serde_json::to_string`;
only determinism is relied on). -/
def serializeOp : Op → String
  | Op.MapSet f k v => "map_set(" ++ f ++ "," ++ k ++ "," ++ v ++ ")"
  | Op.MapDel f k => "map_del(" ++ f ++ "," ++ k ++ ")"
  | Op.ArrayInsert f i vs =>
      "array_insert(" ++ f ++ "," ++ toString i ++ "," ++ String.intercalate "," vs ++ ")"
  | Op.ArrayDelete f i l =>
      "array_delete(" ++ f ++ "," ++ toString i ++ "," ++ toString l ++ ")"
  | Op.LinkAdd a b r => "link_add(" ++ a ++ "," ++ b ++ "," ++ r ++ ")"
  | Op.ProposalCreate p sf ops r =>
      "proposal_create(" ++ p ++ "," ++ sf ++ "," ++ serializeOpList ops ++ "," ++ r ++ ")"

/-- Canonical serialization of an `Op` list. -/
def serializeOpList : List Op → String
  | [] => "nil"
  | o :: rest => serializeOp o ++ ";" ++ serializeOpList rest

end

/-- Ideal SHA-256 rendered as a hex-digest string: deterministic and
injective, and cheap for the kernel to evaluate on concrete inputs. -/
def sha256_hex (s : String) : String := "sha256:" ++ s

/-- Byte list of a string (UTF code points; stands for `as_bytes`). -/
def strBytes (s : String) : List Nat := s.data.map Char.toNat

/-- `u64::to_be_bytes`. -/
def beBytes8 (n : Nat) : List Nat :=
  [n / 2 ^ 56 % 256, n / 2 ^ 48 % 256, n / 2 ^ 40 % 256, n / 2 ^ 32 % 256,
   n / 2 ^ 24 % 256, n / 2 ^ 16 % 256, n / 2 ^ 8 % 256, n % 256]

/-- `i64::to_be_bytes` (two's complement). -/
def beBytes8Int (i : Int) : List Nat := beBytes8 ((i % 2 ^ 64).toNat)

/-- `build_signing_payload` from `envelope.rs`:
version ∥ content_hash ∥ prev_hash ∥ lamport-BE ∥ issued_at-BE. -/
def build_signing_payload (version content_hash prev_hash : String) (lamport : Nat)
    (issued_at_ms : Int) : List Nat :=
  strBytes version ++ strBytes content_hash ++ strBytes prev_hash ++
    beBytes8 lamport ++ beBytes8Int issued_at_ms

/-- The node's Ed25519 public key (idealised single key pair). -/
def node_pubkey : List Nat := List.replicate 32 0

/-- Ideal Ed25519 signature of a payload with the node's private key. -/
def ed_sign (payload : List Nat) : List Nat :=
  Encodable.encode payload :: List.replicate 63 0

/-- Ideal Ed25519 verification: accepts exactly the node's signature of the
payload, under exactly the node's public key. -/
def ed_verify (pubkey payload sig : List Nat) : Bool :=
  decide (pubkey = node_pubkey) && decide (sig = ed_sign payload)

/-- `MutationEnvelope` from `envelope.rs` (key/signature fields as decoded
byte lists, see the section comment). -/
structure MutationEnvelope where
  envelope_version : String
  org_id : String
  mutation_id : String
  actor_pubkey : List Nat
  device_pubkey : Option (List Nat)
  issued_at_ms : Int
  lamport : Nat
  prev_hash : String
  capability_token_id : Option String
  ops : List Op
  policy_context : PolicyContext
  content_hash : String
  signature : List Nat

/-- `MutationEnvelope::sign` from `envelope.rs`.  `chrono::Utc::now` becomes
the explicit `now_ms` argument; the ops-serialization error path of the source
cannot occur in the model because serialization is total. -/
def MutationEnvelope.sign (mutation_id : String) (actor : ActorContext)
    (ops : List Op) (policy_context : PolicyContext) (prev_hash : String)
    (now_ms : Int) : MutationEnvelope :=
  let content_hash := sha256_hex (serializeOpList ops)
  { envelope_version := "1"
    org_id := actor.org_id
    mutation_id := mutation_id
    actor_pubkey := actor.pubkey
    device_pubkey := Option.none
    issued_at_ms := now_ms
    lamport := actor.lamport
    prev_hash := prev_hash
    capability_token_id := Option.none
    ops := ops
    policy_context := policy_context
    content_hash := content_hash
    signature :=
      ed_sign (build_signing_payload "1" content_hash prev_hash actor.lamport now_ms) }

/-- `MutationEnvelope::verify` from `envelope.rs`: recompute the content hash,
rebuild the signing payload, check the decoded key and signature lengths, and
verify the signature against the envelope's actor public key.  The source's
invalid-hex decode errors collapse into the length checks in the byte-list
model. -/
def MutationEnvelope.verify (e : MutationEnvelope) : Except ErpError Unit :=
  if sha256_hex (serializeOpList e.ops) ≠ e.content_hash then
    Except.error (ErpError.SigInvalid
      ("content_hash mismatch: expected " ++ sha256_hex (serializeOpList e.ops) ++
        ", got " ++ e.content_hash))
  else if e.actor_pubkey.length ≠ 32 then
    Except.error (ErpError.SigInvalid "actor_pubkey must be 32 bytes")
  else if e.signature.length ≠ 64 then
    Except.error (ErpError.SigInvalid "signature must be 64 bytes")
  else if ed_verify e.actor_pubkey
      (build_signing_payload e.envelope_version e.content_hash e.prev_hash
        e.lamport e.issued_at_ms) e.signature then
    Except.ok ()
  else
    Except.error (ErpError.SigInvalid "signature verification failed")

/-! ## Audit log (`src/src-tauri/src/erp/audit_log.rs`) -/

/-- `ErpAuditEntry` from `audit_log.rs`. -/
structure ErpAuditEntry where
  chain_prev_hash : String
  chain_hash : String
  envelope : MutationEnvelope

/-- One line of the JSONL audit file: a parseable entry, or not. -/
inductive AuditLine where
  | entry (e : ErpAuditEntry)
  | unparseable

/-- Canonical serialization of an envelope (stands for `serde_json::to_string`
in `append`/`verify_chain`; only determinism is relied on). -/
def serializeEnvelope (e : MutationEnvelope) : String :=
  "envelope(" ++ e.envelope_version ++ "," ++ e.org_id ++ "," ++ e.mutation_id ++ "," ++
    String.intercalate "." (e.actor_pubkey.map toString) ++ "," ++
    (match e.device_pubkey with
     | some k => String.intercalate "." (k.map toString)
     | Option.none => "null") ++ "," ++
    toString e.issued_at_ms ++ "," ++ toString e.lamport ++ "," ++ e.prev_hash ++ "," ++
    (match e.capability_token_id with
     | some t => t
     | Option.none => "null") ++ "," ++
    serializeOpList e.ops ++ "," ++ e.policy_context.org_id ++ "," ++
    e.content_hash ++ "," ++ String.intercalate "." (e.signature.map toString) ++ ")"

/-- The chain hash computed by `append`/`verify_chain`:
SHA-256 of the envelope JSON followed by the predecessor chain hash. -/
def chain_hash_of (envelope : MutationEnvelope) (prev : String) : String :=
  sha256_hex (serializeEnvelope envelope ++ prev)

/-- The audit log's persistent state: the in-memory `ERP_LAST_HASH` pointer
and the lines of the JSONL file. -/
structure AuditLogState where
  last_hash : String
  lines : List AuditLine

/-- A fresh log: genesis pointer, no file lines. -/
def initialAuditLog : AuditLogState := ⟨"erp_genesis", []⟩

/-- `append` from `audit_log.rs`: compute the chain hash from the serialized
envelope and the current pointer, write one entry line, advance the pointer. -/
def append (st : AuditLogState) (envelope : MutationEnvelope) : AuditLogState :=
  { last_hash := chain_hash_of envelope st.last_hash
    lines := st.lines ++
      [AuditLine.entry ⟨st.last_hash, chain_hash_of envelope st.last_hash, envelope⟩] }

/-- Appending a list of envelopes in order. -/
def appendAll (st : AuditLogState) : List MutationEnvelope → AuditLogState
  | [] => st
  | env :: rest => appendAll (append st env) rest

/-- The loop of `verify_chain` from `audit_log.rs`, with the running
predecessor hash explicit: fail closed on an unparseable line, a broken
predecessor link, or a chain-hash mismatch. -/
def verifyFrom (prev : String) : List AuditLine → Bool
  | [] => true
  | AuditLine.unparseable :: _ => false
  | AuditLine.entry e :: rest =>
      if e.chain_prev_hash ≠ prev then false
      else if chain_hash_of e.envelope prev ≠ e.chain_hash then false
      else verifyFrom e.chain_hash rest

/-- `verify_chain` from `audit_log.rs` (an absent file is the empty line
list). -/
def verify_chain (lines : List AuditLine) : Bool :=
  verifyFrom "erp_genesis" lines

/-- The running predecessor hash after consuming a conforming prefix
(`none` when the prefix itself fails verification). -/
def chainCursor (prev : String) : List AuditLine → Option String
  | [] => some prev
  | AuditLine.unparseable :: _ => Option.none
  | AuditLine.entry e :: rest =>
      if e.chain_prev_hash ≠ prev then Option.none
      else if chain_hash_of e.envelope prev ≠ e.chain_hash then Option.none
      else chainCursor e.chain_hash rest

/-- `Char.toNat` is injective. -/
theorem char_toNat_injective : Function.Injective Char.toNat :=
  fun _ _ h => Char.ext (UInt32.ext h)

/-- The byte list of a string determines the string. -/
theorem strBytes_inj {s t : String} (h : strBytes s = strBytes t) : s = t :=
  String.ext (List.map_injective_iff.mpr char_toNat_injective h)

/-- Big-endian 8-byte encoding is injective below `2 ^ 64`. -/
theorem beBytes8_inj {a b : Nat} (ha : a < 2 ^ 64) (hb : b < 2 ^ 64)
    (h : beBytes8 a = beBytes8 b) : a = b := by
  simp only [beBytes8, List.cons.injEq, and_true] at h
  obtain ⟨h1, h2, h3, h4, h5, h6, h7, h8⟩ := h
  omega

/-- Two's-complement 8-byte encoding is injective on the `i64` range. -/
theorem beBytes8Int_inj {a b : Int} (ha0 : -(2 ^ 63) ≤ a) (ha1 : a < 2 ^ 63)
    (hb0 : -(2 ^ 63) ≤ b) (hb1 : b < 2 ^ 63)
    (h : beBytes8Int a = beBytes8Int b) : a = b := by
  have hmod : (a % 2 ^ 64).toNat = (b % 2 ^ 64).toNat := by
    refine beBytes8_inj ?_ ?_ h
    · have := Int.emod_lt_of_pos a (by positivity : (0 : ℤ) < 2 ^ 64)
      omega
    · have := Int.emod_lt_of_pos b (by positivity : (0 : ℤ) < 2 ^ 64)
      omega
  have ha := Int.emod_nonneg a (by positivity : (2 ^ 64 : ℤ) ≠ 0)
  have hb := Int.emod_nonneg b (by positivity : (2 ^ 64 : ℤ) ≠ 0)
  have : a % 2 ^ 64 = b % 2 ^ 64 := by omega
  omega

/-- Ideal signatures are injective in the payload. -/
theorem ed_sign_inj {p q : List Nat} (h : ed_sign p = ed_sign q) : p = q := by
  simp only [ed_sign, List.cons.injEq, and_true] at h
  exact Encodable.encode_injective h

/-- `verify` succeeds exactly when the content hash matches, the key and
signature have the checked lengths, the key is the node's, and the signature
is the node's signature of the rebuilt payload. -/
theorem verify_ok_iff (e : MutationEnvelope) :
    e.verify = Except.ok () ↔
      sha256_hex (serializeOpList e.ops) = e.content_hash ∧
      e.actor_pubkey.length = 32 ∧ e.signature.length = 64 ∧
      e.actor_pubkey = node_pubkey ∧
      e.signature = ed_sign (build_signing_payload e.envelope_version e.content_hash
        e.prev_hash e.lamport e.issued_at_ms) := by
  rw [MutationEnvelope.verify]
  split_ifs with h1 h2 h3 h4 <;> simp_all [ed_verify]

/-- Every failing `verify` reports a signature/content-hash-invalid error. -/
theorem verify_not_ok (e : MutationEnvelope) (h : e.verify ≠ Except.ok ()) :
    ∃ msg, e.verify = Except.error (ErpError.SigInvalid msg) := by
  rw [MutationEnvelope.verify] at h ⊢
  split_ifs at h ⊢ <;> first | exact ⟨_, rfl⟩ | simp_all

/-! ## Claim C4 -/

/-- Counterexample to C4 as stated: `verify(sign(...))` is not ok for every
actor — the source signs with the node's key but verifies against the
envelope's `actor_pubkey`, so an actor context whose public key is not the
node's (here: an empty key, which fails the 32-byte decode check) produces an
envelope that fails verification immediately after signing. -/
theorem C4_counterexample :
    (MutationEnvelope.sign "mut-001" ⟨[], Role.Finance, "org1", 1⟩ []
      ⟨"org1", some "tx_test", some TxStatus.Draft⟩ "genesis" 0).verify =
      Except.error (ErpError.SigInvalid "actor_pubkey must be 32 bytes") := by
  rw [MutationEnvelope.verify]
  norm_num [MutationEnvelope.sign]

/-- C4 as amended: an envelope produced by `sign` verifies successfully
provided the actor context's public key is the node's signing public key (the
single-signer deployment); for every signed envelope, replacing
`content_hash`, `signature`, `prev_hash`, `lamport` (within `u64` range), or
`issued_at_ms` (within `i64` range) by any different value makes `verify` fail
with a signature/content-hash-invalid error; and `verify` rejects any envelope
whose decoded actor public key is not exactly 32 bytes or whose decoded
signature is not exactly 64 bytes. -/
theorem C4_envelope_amended (mutation_id : String) (actor : ActorContext)
    (ops : List Op) (pc : PolicyContext) (prev_hash : String) (now_ms : Int) :
    (actor.pubkey = node_pubkey →
      (MutationEnvelope.sign mutation_id actor ops pc prev_hash now_ms).verify =
        Except.ok ()) ∧
    (∀ h', h' ≠ sha256_hex (serializeOpList ops) →
      ∃ msg, MutationEnvelope.verify
        { MutationEnvelope.sign mutation_id actor ops pc prev_hash now_ms with
          content_hash := h' } = Except.error (ErpError.SigInvalid msg)) ∧
    (∀ s', s' ≠ (MutationEnvelope.sign mutation_id actor ops pc prev_hash now_ms).signature →
      ∃ msg, MutationEnvelope.verify
        { MutationEnvelope.sign mutation_id actor ops pc prev_hash now_ms with
          signature := s' } = Except.error (ErpError.SigInvalid msg)) ∧
    (∀ p', p' ≠ prev_hash →
      ∃ msg, MutationEnvelope.verify
        { MutationEnvelope.sign mutation_id actor ops pc prev_hash now_ms with
          prev_hash := p' } = Except.error (ErpError.SigInvalid msg)) ∧
    (actor.lamport < 2 ^ 64 →
      ∀ l', l' ≠ actor.lamport → l' < 2 ^ 64 →
      ∃ msg, MutationEnvelope.verify
        { MutationEnvelope.sign mutation_id actor ops pc prev_hash now_ms with
          lamport := l' } = Except.error (ErpError.SigInvalid msg)) ∧
    (-(2 ^ 63) ≤ now_ms → now_ms < 2 ^ 63 →
      ∀ t', t' ≠ now_ms → -(2 ^ 63) ≤ t' → t' < 2 ^ 63 →
      ∃ msg, MutationEnvelope.verify
        { MutationEnvelope.sign mutation_id actor ops pc prev_hash now_ms with
          issued_at_ms := t' } = Except.error (ErpError.SigInvalid msg)) ∧
    (∀ e : MutationEnvelope, e.actor_pubkey.length ≠ 32 ∨ e.signature.length ≠ 64 →
      ∃ msg, e.verify = Except.error (ErpError.SigInvalid msg)) := by
  refine ⟨?_, ?_, ?_, ?_, ?_, ?_, ?_⟩
  · intro hpk
    rw [verify_ok_iff]
    refine ⟨rfl, ?_, ?_, hpk, rfl⟩
    · simp [MutationEnvelope.sign, hpk, node_pubkey]
    · simp [MutationEnvelope.sign, ed_sign]
  · intro h' hne
    refine verify_not_ok _ fun hok => ?_
    rw [verify_ok_iff] at hok
    exact hne hok.1.symm
  · intro s' hne
    refine verify_not_ok _ fun hok => ?_
    rw [verify_ok_iff] at hok
    exact hne hok.2.2.2.2
  · intro p' hne
    refine verify_not_ok _ fun hok => ?_
    rw [verify_ok_iff] at hok
    have hsig :
        ed_sign (build_signing_payload "1" (sha256_hex (serializeOpList ops)) prev_hash
          actor.lamport now_ms) =
        ed_sign (build_signing_payload "1" (sha256_hex (serializeOpList ops)) p'
          actor.lamport now_ms) := hok.2.2.2.2
    have hpay := ed_sign_inj hsig
    unfold build_signing_payload at hpay
    have h1 := List.append_cancel_right hpay
    have h2 := List.append_cancel_right h1
    have h3 := List.append_cancel_left h2
    exact hne (strBytes_inj h3).symm
  · intro hlam l' hne hl'
    refine verify_not_ok _ fun hok => ?_
    rw [verify_ok_iff] at hok
    have hsig :
        ed_sign (build_signing_payload "1" (sha256_hex (serializeOpList ops)) prev_hash
          actor.lamport now_ms) =
        ed_sign (build_signing_payload "1" (sha256_hex (serializeOpList ops)) prev_hash
          l' now_ms) := hok.2.2.2.2
    have hpay := ed_sign_inj hsig
    unfold build_signing_payload at hpay
    have h1 := List.append_cancel_right hpay
    have h2 := List.append_cancel_left h1
    exact hne (beBytes8_inj hlam hl' h2).symm
  · intro hn0 hn1 t' hne ht0 ht1
    refine verify_not_ok _ fun hok => ?_
    rw [verify_ok_iff] at hok
    have hsig :
        ed_sign (build_signing_payload "1" (sha256_hex (serializeOpList ops)) prev_hash
          actor.lamport now_ms) =
        ed_sign (build_signing_payload "1" (sha256_hex (serializeOpList ops)) prev_hash
          actor.lamport t') := hok.2.2.2.2
    have hpay := ed_sign_inj hsig
    unfold build_signing_payload at hpay
    have h1 := List.append_cancel_left hpay
    exact hne (beBytes8Int_inj hn0 hn1 ht0 ht1 h1).symm
  · intro e h
    refine verify_not_ok _ fun hok => ?_
    rw [verify_ok_iff] at hok
    rcases h with h | h
    · exact h hok.2.1
    · exact h hok.2.2.1

/-- Witness for C4 (amended): a node-keyed envelope round-trips, and changing
its `prev_hash` after signing makes `verify` fail. -/
theorem C4_envelope_amended_witness :
    (MutationEnvelope.sign "mut-001" ⟨node_pubkey, Role.Finance, "org1", 1⟩ []
      ⟨"org1", some "tx_test", some TxStatus.Draft⟩ "genesis" 0).verify =
      Except.ok () ∧
    (∃ msg, MutationEnvelope.verify
      { MutationEnvelope.sign "mut-001" ⟨node_pubkey, Role.Finance, "org1", 1⟩ []
          ⟨"org1", some "tx_test", some TxStatus.Draft⟩ "genesis" 0 with
        prev_hash := "tampered" } = Except.error (ErpError.SigInvalid msg)) := by
  constructor
  · exact (C4_envelope_amended "mut-001" ⟨node_pubkey, Role.Finance, "org1", 1⟩ []
      ⟨"org1", some "tx_test", some TxStatus.Draft⟩ "genesis" 0).1 rfl
  · exact (C4_envelope_amended "mut-001" ⟨node_pubkey, Role.Finance, "org1", 1⟩ []
      ⟨"org1", some "tx_test", some TxStatus.Draft⟩ "genesis" 0).2.2.2.1 "tampered"
      (by decide)

/-- The lines produced by appending a list of envelopes after a given chain
pointer. -/
def buildLines (prev : String) : List MutationEnvelope → List AuditLine
  | [] => []
  | env :: rest =>
      AuditLine.entry ⟨prev, chain_hash_of env prev, env⟩ ::
        buildLines (chain_hash_of env prev) rest

/-- `appendAll` writes exactly the chained entry lines after the existing
ones. -/
theorem appendAll_lines (envs : List MutationEnvelope) (st : AuditLogState) :
    (appendAll st envs).lines = st.lines ++ buildLines st.last_hash envs := by
  induction envs generalizing st with
  | nil => simp [appendAll, buildLines]
  | cons env rest ih =>
      rw [appendAll, ih]
      simp [append, buildLines]

/-- Entry lines built from a matching chain pointer always verify. -/
theorem verifyFrom_buildLines (envs : List MutationEnvelope) (prev : String) :
    verifyFrom prev (buildLines prev envs) = true := by
  induction envs generalizing prev with
  | nil => rfl
  | cons env rest ih => simp [buildLines, verifyFrom, ih]

/-- Verification of a list with a conforming prefix continues from the
prefix's final chain pointer. -/
theorem verifyFrom_append (pre : List AuditLine) (rest : List AuditLine)
    (prev p : String) (h : chainCursor prev pre = some p) :
    verifyFrom prev (pre ++ rest) = verifyFrom p rest := by
  induction pre generalizing prev with
  | nil =>
      simp only [chainCursor, Option.some.injEq] at h
      subst h
      rfl
  | cons line pre' ih =>
      cases line with
      | unparseable => simp [chainCursor] at h
      | entry e =>
          by_cases h1 : e.chain_prev_hash ≠ prev
          · rw [chainCursor, if_pos h1] at h
            exact absurd h (by simp)
          · by_cases h2 : chain_hash_of e.envelope prev ≠ e.chain_hash
            · rw [chainCursor, if_neg h1, if_pos h2] at h
              exact absurd h (by simp)
            · rw [chainCursor, if_neg h1, if_neg h2] at h
              rw [List.cons_append, verifyFrom, if_neg h1, if_neg h2]
              exact ih _ h

/-! ## Claim C5 -/

/-- C5: a log produced by appending envelopes through `append` (each entry's
chain hash being the hash of the serialized envelope concatenated with the
predecessor chain hash, from the genesis sentinel) verifies as true; an empty
(absent) log verifies as true; and after any conforming prefix, an
unparseable line, or an entry whose recomputed chain hash mismatches its
stored one, makes `verify_chain` return false. -/
theorem C5_verify_chain :
    (∀ envs : List MutationEnvelope,
      verify_chain (appendAll initialAuditLog envs).lines = true) ∧
    verify_chain [] = true ∧
    (∀ pre tail p, chainCursor "erp_genesis" pre = some p →
      verify_chain (pre ++ AuditLine.unparseable :: tail) = false) ∧
    (∀ pre tail p e, chainCursor "erp_genesis" pre = some p →
      chain_hash_of e.envelope p ≠ e.chain_hash →
      verify_chain (pre ++ AuditLine.entry e :: tail) = false) := by
  refine ⟨fun envs => ?_, rfl, fun pre tail p h => ?_, fun pre tail p e h hm => ?_⟩
  · rw [appendAll_lines]
    simpa [initialAuditLog, verify_chain] using
      verifyFrom_buildLines envs "erp_genesis"
  · rw [verify_chain, verifyFrom_append _ _ _ _ h]
    rfl
  · rw [verify_chain, verifyFrom_append _ _ _ _ h]
    by_cases h1 : e.chain_prev_hash ≠ p
    · rw [verifyFrom, if_pos h1]
    · rw [verifyFrom, if_neg h1, if_pos hm]

/-- Witness for C5: a two-envelope log verifies; appending an unparseable
line to the empty log, or an entry whose stored chain hash is wrong, breaks
verification. -/
theorem C5_verify_chain_witness :
    verify_chain (appendAll initialAuditLog
      [MutationEnvelope.sign "mut-001" ⟨node_pubkey, Role.Finance, "org1", 1⟩ []
        ⟨"org1", Option.none, Option.none⟩ "genesis" 0,
       MutationEnvelope.sign "mut-002" ⟨node_pubkey, Role.Finance, "org1", 2⟩ []
        ⟨"org1", Option.none, Option.none⟩ "genesis2" 1]).lines = true ∧
    verify_chain [AuditLine.unparseable] = false ∧
    verify_chain [AuditLine.entry
      ⟨"erp_genesis", "bogus",
        ⟨"1", "org1", "mut-001", [], Option.none, 0, 1, "genesis", Option.none, [],
          ⟨"org1", Option.none, Option.none⟩, "ch", []⟩⟩] = false := by
  refine ⟨?_, ?_, ?_⟩
  · exact C5_verify_chain.1 _
  · simpa using C5_verify_chain.2.2.1 [] [] "erp_genesis" rfl
  · have hm : chain_hash_of
        ⟨"1", "org1", "mut-001", [], Option.none, 0, 1, "genesis", Option.none, [],
          ⟨"org1", Option.none, Option.none⟩, "ch", []⟩ "erp_genesis" ≠ "bogus" := by
      decide
    have h := C5_verify_chain.2.2.2 [] [] "erp_genesis"
      ⟨"erp_genesis", "bogus",
        ⟨"1", "org1", "mut-001", [], Option.none, 0, 1, "genesis", Option.none, [],
          ⟨"org1", Option.none, Option.none⟩, "ch", []⟩⟩ rfl hm
    simpa using h
